import Mathlib

/-!
Verification of the performance-metrics tracker and the alert engine of the
elasticsearch-performance-monitoring repository.

Numbers (timestamps in milliseconds, cumulative operation counters, derived
rates and latencies) are modelled as rationals; the source computes with JS
doubles, and every quantity the claims touch is exactly representable.
Wall-clock reads (`Date.now()`, `new Date().toISOString()`) are modelled by an
explicit `now` argument of the state-transition functions.
-/

namespace ESMon

/-- One retained snapshot of cumulative counters
(`PerformanceHistory` in `types/api.ts`). -/
structure PerformanceHistory where
  timestamp : ℚ
  totalIndexingOps : ℚ
  totalSearchOps : ℚ
  totalIndexTimeMs : ℚ
  totalSearchTimeMs : ℚ
  deriving DecidableEq, Repr

/-- Derived per-interval metrics (`PerformanceMetrics` in `types/api.ts`). -/
structure PerformanceMetrics where
  indexingRate : ℚ
  searchRate : ℚ
  indexLatency : ℚ
  searchLatency : ℚ
  deriving DecidableEq, Repr

/-- One chart buffer entry (`ChartDataPoint`): a timestamp plus the metrics. -/
structure ChartDataPoint where
  timestamp : ℚ
  indexingRate : ℚ
  searchRate : ℚ
  indexLatency : ℚ
  searchLatency : ℚ
  deriving DecidableEq, Repr

/-- Mutable state of the `PerformanceTracker` class: the history buffer and
the chart buffer, both kept in chronological order (JS `push` appends). -/
structure PerformanceTracker where
  history : List PerformanceHistory
  chartData : List ChartDataPoint
  deriving DecidableEq, Repr

/-- `maxHistorySize = 120` (10 minutes at a 5 s cadence). -/
def maxHistorySize : Nat := 120

/-- `maxChartSize = 60` (5 minutes for UI charts). -/
def maxChartSize : Nat := 60

/-- `MIN_TIME_DIFF_SECONDS = 1`. -/
def MIN_TIME_DIFF_SECONDS : ℚ := 1

/-- `MAX_RATE_PER_SEC = 50_000_000`. -/
def MAX_RATE_PER_SEC : ℚ := 50000000

/-- `MAX_LATENCY_MS = 300_000`. -/
def MAX_LATENCY_MS : ℚ := 300000

/-- The all-zero metrics object returned on the short-history and
untrusted-interval paths of `calculateCurrentMetrics`. -/
def zeroMetrics : PerformanceMetrics :=
  { indexingRate := 0, searchRate := 0, indexLatency := 0, searchLatency := 0 }

/-- `timeDiffSeconds = (current.timestamp - previous.timestamp) / 1000`. -/
def timeDiffSeconds (previous current : PerformanceHistory) : ℚ :=
  (current.timestamp - previous.timestamp) / 1000

/-- `indexingOpsDiff = Math.max(0, current.totalIndexingOps - previous.totalIndexingOps)`. -/
def indexingOpsDiff (previous current : PerformanceHistory) : ℚ :=
  max 0 (current.totalIndexingOps - previous.totalIndexingOps)

/-- `searchOpsDiff = Math.max(0, current.totalSearchOps - previous.totalSearchOps)`. -/
def searchOpsDiff (previous current : PerformanceHistory) : ℚ :=
  max 0 (current.totalSearchOps - previous.totalSearchOps)

/-- `indexTimeDiffMs = Math.max(0, current.totalIndexTimeMs - previous.totalIndexTimeMs)`. -/
def indexTimeDiffMs (previous current : PerformanceHistory) : ℚ :=
  max 0 (current.totalIndexTimeMs - previous.totalIndexTimeMs)

/-- `searchTimeDiffMs = Math.max(0, current.totalSearchTimeMs - previous.totalSearchTimeMs)`. -/
def searchTimeDiffMs (previous current : PerformanceHistory) : ℚ :=
  max 0 (current.totalSearchTimeMs - previous.totalSearchTimeMs)

/-- Pre-cap index latency: `indexingOpsDiff > 0 ? indexTimeDiffMs / indexingOpsDiff : 0`. -/
def indexLatencyRaw (previous current : PerformanceHistory) : ℚ :=
  if 0 < indexingOpsDiff previous current then
    indexTimeDiffMs previous current / indexingOpsDiff previous current
  else 0

/-- Pre-cap search latency: `searchOpsDiff > 0 ? searchTimeDiffMs / searchOpsDiff : 0`. -/
def searchLatencyRaw (previous current : PerformanceHistory) : ℚ :=
  if 0 < searchOpsDiff previous current then
    searchTimeDiffMs previous current / searchOpsDiff previous current
  else 0

/-- Pre-cap indexing rate: `Math.max(0, indexingOpsDiff / timeDiffSeconds)`. -/
def indexingRateRaw (previous current : PerformanceHistory) : ℚ :=
  max 0 (indexingOpsDiff previous current / timeDiffSeconds previous current)

/-- Pre-cap search rate: `Math.max(0, searchOpsDiff / timeDiffSeconds)`. -/
def searchRateRaw (previous current : PerformanceHistory) : ℚ :=
  max 0 (searchOpsDiff previous current / timeDiffSeconds previous current)

/-- The body of `calculateCurrentMetrics` once the two most recent history
entries are fixed: the untrusted-interval guard, the clamped deltas, the
rate/latency formulas and the sanity caps (source lines 119-155 of the
tracker). -/
def deriveMetrics (previous current : PerformanceHistory) : PerformanceMetrics :=
  if timeDiffSeconds previous current ≤ 0 ∨
      timeDiffSeconds previous current < MIN_TIME_DIFF_SECONDS then zeroMetrics
  else
    { indexingRate :=
        if MAX_RATE_PER_SEC < indexingRateRaw previous current then 0
        else indexingRateRaw previous current
      searchRate :=
        if MAX_RATE_PER_SEC < searchRateRaw previous current then 0
        else searchRateRaw previous current
      indexLatency :=
        if MAX_LATENCY_MS < indexLatencyRaw previous current then MAX_LATENCY_MS
        else indexLatencyRaw previous current
      searchLatency :=
        if MAX_LATENCY_MS < searchLatencyRaw previous current then MAX_LATENCY_MS
        else searchLatencyRaw previous current }

/-- `calculateCurrentMetrics`: with fewer than two history entries return the
all-zero metrics, otherwise derive from the two most recent entries
(`history[len-1]` is `current`, `history[len-2]` is `previous`). -/
def calculateCurrentMetrics (t : PerformanceTracker) : PerformanceMetrics :=
  match t.history.reverse with
  | current :: previous :: _ => deriveMetrics previous current
  | _ => zeroMetrics

/-- JS `arr.slice(-n)`: keep the last `n` elements. -/
def sliceLast {α : Type} (l : List α) (n : Nat) : List α :=
  l.drop (l.length - n)

/-- `addChartDataPoint`: push `{timestamp, ...metrics}` and truncate the chart
buffer to the most recent `maxChartSize` entries. -/
def addChartDataPoint (t : PerformanceTracker) (timestamp : ℚ)
    (metrics : PerformanceMetrics) : PerformanceTracker :=
  let chartPoint : ChartDataPoint :=
    { timestamp := timestamp
      indexingRate := metrics.indexingRate
      searchRate := metrics.searchRate
      indexLatency := metrics.indexLatency
      searchLatency := metrics.searchLatency }
  let pushed := t.chartData ++ [chartPoint]
  { t with chartData :=
      if maxChartSize < pushed.length then sliceLast pushed maxChartSize else pushed }

/-- `addSnapshot`, at the level of the history entry it appends: the caller
side of the source (its first half) selects cluster-, node- or index-scoped
cumulative totals from the raw snapshot; this model receives those totals
directly.  Appends the entry, truncates the history buffer to the most recent
`maxHistorySize` entries, computes the metrics, appends the chart point and
returns the updated tracker together with the metrics (persistence to
sessionStorage is a no-op here). -/
def addSnapshot (t : PerformanceTracker) (timestamp totalIndexingOps
    totalSearchOps totalIndexTimeMs totalSearchTimeMs : ℚ) :
    PerformanceTracker × PerformanceMetrics :=
  let currentEntry : PerformanceHistory :=
    { timestamp := timestamp
      totalIndexingOps := totalIndexingOps
      totalSearchOps := totalSearchOps
      totalIndexTimeMs := totalIndexTimeMs
      totalSearchTimeMs := totalSearchTimeMs }
  let pushed := t.history ++ [currentEntry]
  let t1 : PerformanceTracker :=
    { t with history :=
        if maxHistorySize < pushed.length then sliceLast pushed maxHistorySize else pushed }
  let metrics := calculateCurrentMetrics t1
  let t2 := addChartDataPoint t1 timestamp metrics
  (t2, metrics)

/-- `getCurrentMetrics`: recompute from the current history. -/
def getCurrentMetrics (t : PerformanceTracker) : PerformanceMetrics :=
  calculateCurrentMetrics t

/-- `clearData`: reset both buffers. -/
def clearData (_t : PerformanceTracker) : PerformanceTracker :=
  { history := [], chartData := [] }

/-- A tracker as freshly constructed (ignoring the sessionStorage restore). -/
def emptyTracker : PerformanceTracker := { history := [], chartData := [] }

end ESMon

namespace ESMon

/-- With at least two history entries, `calculateCurrentMetrics` derives from
the two most recent ones. -/
theorem calculateCurrentMetrics_cons {t : PerformanceTracker}
    {current previous : PerformanceHistory} {rest : List PerformanceHistory}
    (h : t.history.reverse = current :: previous :: rest) :
    calculateCurrentMetrics t = deriveMetrics previous current := by
  unfold calculateCurrentMetrics
  rw [h]

/-- With fewer than two history entries, `calculateCurrentMetrics` returns the
all-zero metrics. -/
theorem calculateCurrentMetrics_short {t : PerformanceTracker}
    (h : t.history.length < 2) : calculateCurrentMetrics t = zeroMetrics := by
  rcases hrev : t.history.reverse with _ | ⟨a, _ | ⟨b, tl⟩⟩
  · unfold calculateCurrentMetrics; rw [hrev]
  · unfold calculateCurrentMetrics; rw [hrev]
  · exfalso
    have hlen := congrArg List.length hrev
    simp only [List.length_reverse, List.length_cons] at hlen
    omega

/-- The untrusted-interval guard of `deriveMetrics`. -/
theorem deriveMetrics_untrusted {previous current : PerformanceHistory}
    (h : timeDiffSeconds previous current ≤ 0 ∨
      timeDiffSeconds previous current < MIN_TIME_DIFF_SECONDS) :
    deriveMetrics previous current = zeroMetrics := by
  unfold deriveMetrics
  rw [if_pos h]

/-- Unfolding of `deriveMetrics` on a trusted interval. -/
theorem deriveMetrics_trusted {previous current : PerformanceHistory}
    (h : MIN_TIME_DIFF_SECONDS ≤ timeDiffSeconds previous current) :
    deriveMetrics previous current =
      { indexingRate :=
          if MAX_RATE_PER_SEC < indexingRateRaw previous current then 0
          else indexingRateRaw previous current
        searchRate :=
          if MAX_RATE_PER_SEC < searchRateRaw previous current then 0
          else searchRateRaw previous current
        indexLatency :=
          if MAX_LATENCY_MS < indexLatencyRaw previous current then MAX_LATENCY_MS
          else indexLatencyRaw previous current
        searchLatency :=
          if MAX_LATENCY_MS < searchLatencyRaw previous current then MAX_LATENCY_MS
          else searchLatencyRaw previous current } := by
  unfold MIN_TIME_DIFF_SECONDS at h
  unfold deriveMetrics
  rw [if_neg]
  push_neg
  constructor <;> [linarith; exact h]

/-- On a trusted interval the raw rates drop their outer `max 0` clamp:
the quotient of the (already clamped) ops delta by a positive time is
nonnegative. -/
theorem indexingRateRaw_eq {previous current : PerformanceHistory}
    (h : MIN_TIME_DIFF_SECONDS ≤ timeDiffSeconds previous current) :
    indexingRateRaw previous current =
      indexingOpsDiff previous current / timeDiffSeconds previous current := by
  unfold MIN_TIME_DIFF_SECONDS at h
  have hpos : (0:ℚ) < timeDiffSeconds previous current := by linarith
  exact max_eq_right (div_nonneg (le_max_left _ _) hpos.le)

/-- Search-rate analogue of `indexingRateRaw_eq`. -/
theorem searchRateRaw_eq {previous current : PerformanceHistory}
    (h : MIN_TIME_DIFF_SECONDS ≤ timeDiffSeconds previous current) :
    searchRateRaw previous current =
      searchOpsDiff previous current / timeDiffSeconds previous current := by
  unfold MIN_TIME_DIFF_SECONDS at h
  have hpos : (0:ℚ) < timeDiffSeconds previous current := by linarith
  exact max_eq_right (div_nonneg (le_max_left _ _) hpos.le)

end ESMon

namespace ESMon

/-- **C5** — `addSnapshot` implements the derivation algorithm: with fewer
than 2 history entries, or when the time delta between the two most recent
entries is ≤ 0 s or below 1 s, all-zero metrics are returned; otherwise the
rate is `max(0, opsDelta) / Δt` and the latency is `timeDelta / opsDelta`
when `opsDelta > 0` and `0` otherwise (the sanity caps of §4.1, stated as
the no-cap side conditions here, are the subject of the separate cap claim);
and in particular the end-to-end scenario — snapshot A at t=0 with
cumulative indexing ops 1000 and index time 5000 ms, snapshot B at t=10 s
with ops 1100 and time 5600 ms — yields indexingRate 10 ops/s and index
latency 6 ms. -/
theorem addSnapshot_implements_derivation
    (t : PerformanceTracker) (current previous : PerformanceHistory)
    (rest : List PerformanceHistory) :
    (t.history.length < 2 → calculateCurrentMetrics t = zeroMetrics) ∧
    (t.history.reverse = current :: previous :: rest →
      timeDiffSeconds previous current ≤ 0 ∨
        timeDiffSeconds previous current < MIN_TIME_DIFF_SECONDS →
      calculateCurrentMetrics t = zeroMetrics) ∧
    (t.history.reverse = current :: previous :: rest →
      MIN_TIME_DIFF_SECONDS ≤ timeDiffSeconds previous current →
      indexingOpsDiff previous current / timeDiffSeconds previous current
        ≤ MAX_RATE_PER_SEC →
      searchOpsDiff previous current / timeDiffSeconds previous current
        ≤ MAX_RATE_PER_SEC →
      indexLatencyRaw previous current ≤ MAX_LATENCY_MS →
      searchLatencyRaw previous current ≤ MAX_LATENCY_MS →
      calculateCurrentMetrics t =
        { indexingRate :=
            indexingOpsDiff previous current / timeDiffSeconds previous current
          searchRate :=
            searchOpsDiff previous current / timeDiffSeconds previous current
          indexLatency :=
            if 0 < indexingOpsDiff previous current then
              indexTimeDiffMs previous current / indexingOpsDiff previous current
            else 0
          searchLatency :=
            if 0 < searchOpsDiff previous current then
              searchTimeDiffMs previous current / searchOpsDiff previous current
            else 0 }) ∧
    (addSnapshot (addSnapshot emptyTracker 0 1000 0 5000 0).1 10000 1100 0 5600 0).2
      = { indexingRate := 10, searchRate := 0, indexLatency := 6, searchLatency := 0 } := by
  refine ⟨fun h => calculateCurrentMetrics_short h, fun hrev hbad => ?_,
    fun hrev hmin hc1 hc2 hc3 hc4 => ?_, ?_⟩
  · rw [calculateCurrentMetrics_cons hrev, deriveMetrics_untrusted hbad]
  · rw [calculateCurrentMetrics_cons hrev, deriveMetrics_trusted hmin,
      indexingRateRaw_eq hmin, searchRateRaw_eq hmin]
    rw [if_neg (not_lt.mpr hc1), if_neg (not_lt.mpr hc2),
      if_neg (not_lt.mpr hc3), if_neg (not_lt.mpr hc4)]
    unfold indexLatencyRaw searchLatencyRaw
    rfl
  · norm_num [addSnapshot, addChartDataPoint, calculateCurrentMetrics, deriveMetrics,
      emptyTracker, timeDiffSeconds, indexingOpsDiff, searchOpsDiff, indexTimeDiffMs,
      searchTimeDiffMs, indexLatencyRaw, searchLatencyRaw, indexingRateRaw, searchRateRaw,
      MIN_TIME_DIFF_SECONDS, MAX_RATE_PER_SEC, MAX_LATENCY_MS, zeroMetrics, sliceLast,
      maxHistorySize, maxChartSize]

/-- Witness for the derivation theorem: the hypothesis-laden conjuncts applied
at the concrete two-entry history of the end-to-end scenario. -/
theorem addSnapshot_implements_derivation_witness :
    calculateCurrentMetrics
      { history := [{ timestamp := 0, totalIndexingOps := 1000, totalSearchOps := 0,
                      totalIndexTimeMs := 5000, totalSearchTimeMs := 0 },
                    { timestamp := 10000, totalIndexingOps := 1100, totalSearchOps := 0,
                      totalIndexTimeMs := 5600, totalSearchTimeMs := 0 }],
        chartData := [] }
      = { indexingRate := 10, searchRate := 0, indexLatency := 6, searchLatency := 0 } := by
  have h := (addSnapshot_implements_derivation
    { history := [{ timestamp := 0, totalIndexingOps := 1000, totalSearchOps := 0,
                    totalIndexTimeMs := 5000, totalSearchTimeMs := 0 },
                  { timestamp := 10000, totalIndexingOps := 1100, totalSearchOps := 0,
                    totalIndexTimeMs := 5600, totalSearchTimeMs := 0 }],
      chartData := [] }
    { timestamp := 10000, totalIndexingOps := 1100, totalSearchOps := 0,
      totalIndexTimeMs := 5600, totalSearchTimeMs := 0 }
    { timestamp := 0, totalIndexingOps := 1000, totalSearchOps := 0,
      totalIndexTimeMs := 5000, totalSearchTimeMs := 0 } []).2.2.1
    (by rfl)
    (by norm_num [timeDiffSeconds, MIN_TIME_DIFF_SECONDS])
    (by norm_num [timeDiffSeconds, indexingOpsDiff, MAX_RATE_PER_SEC])
    (by norm_num [timeDiffSeconds, searchOpsDiff, MAX_RATE_PER_SEC])
    (by norm_num [indexLatencyRaw, indexTimeDiffMs, indexingOpsDiff, MAX_LATENCY_MS])
    (by norm_num [searchLatencyRaw, searchTimeDiffMs, searchOpsDiff, MAX_LATENCY_MS])
  rw [h]
  norm_num [timeDiffSeconds, indexingOpsDiff, searchOpsDiff, indexTimeDiffMs, searchTimeDiffMs]

end ESMon

namespace ESMon

/-- Every field of `deriveMetrics` is nonnegative. -/
theorem deriveMetrics_nonneg (previous current : PerformanceHistory) :
    0 ≤ (deriveMetrics previous current).indexingRate ∧
    0 ≤ (deriveMetrics previous current).searchRate ∧
    0 ≤ (deriveMetrics previous current).indexLatency ∧
    0 ≤ (deriveMetrics previous current).searchLatency := by
  unfold deriveMetrics
  split
  · simp [zeroMetrics]
  · refine ⟨?_, ?_, ?_, ?_⟩ <;> dsimp only <;> split
    · rfl
    · exact le_max_left _ _
    · rfl
    · exact le_max_left _ _
    · norm_num [MAX_LATENCY_MS]
    · unfold indexLatencyRaw
      split
      · exact div_nonneg (le_max_left _ _) (le_of_lt (by assumption))
      · rfl
    · norm_num [MAX_LATENCY_MS]
    · unfold searchLatencyRaw
      split
      · exact div_nonneg (le_max_left _ _) (le_of_lt (by assumption))
      · rfl

/-- Every field of `calculateCurrentMetrics` is nonnegative. -/
theorem calculateCurrentMetrics_nonneg (t : PerformanceTracker) :
    0 ≤ (calculateCurrentMetrics t).indexingRate ∧
    0 ≤ (calculateCurrentMetrics t).searchRate ∧
    0 ≤ (calculateCurrentMetrics t).indexLatency ∧
    0 ≤ (calculateCurrentMetrics t).searchLatency := by
  unfold calculateCurrentMetrics
  split
  · exact deriveMetrics_nonneg _ _
  · simp [zeroMetrics]

/-- **C6** — all four metrics returned by `addSnapshot` or
`getCurrentMetrics` are ≥ 0 for every tracker state; and when a cumulative
counter decreases between the two most recent entries (counter reset), the
delta is clamped to 0 and the computed rate is 0, never negative. -/
theorem metrics_nonneg_and_reset_clamped
    (t : PerformanceTracker) (current previous : PerformanceHistory)
    (rest : List PerformanceHistory)
    (timestamp totalIndexingOps totalSearchOps totalIndexTimeMs totalSearchTimeMs : ℚ) :
    (0 ≤ (getCurrentMetrics t).indexingRate ∧
     0 ≤ (getCurrentMetrics t).searchRate ∧
     0 ≤ (getCurrentMetrics t).indexLatency ∧
     0 ≤ (getCurrentMetrics t).searchLatency) ∧
    (0 ≤ (addSnapshot t timestamp totalIndexingOps totalSearchOps
            totalIndexTimeMs totalSearchTimeMs).2.indexingRate ∧
     0 ≤ (addSnapshot t timestamp totalIndexingOps totalSearchOps
            totalIndexTimeMs totalSearchTimeMs).2.searchRate ∧
     0 ≤ (addSnapshot t timestamp totalIndexingOps totalSearchOps
            totalIndexTimeMs totalSearchTimeMs).2.indexLatency ∧
     0 ≤ (addSnapshot t timestamp totalIndexingOps totalSearchOps
            totalIndexTimeMs totalSearchTimeMs).2.searchLatency) ∧
    (t.history.reverse = current :: previous :: rest →
      current.totalIndexingOps < previous.totalIndexingOps →
      indexingOpsDiff previous current = 0 ∧
      (calculateCurrentMetrics t).indexingRate = 0) ∧
    (t.history.reverse = current :: previous :: rest →
      current.totalSearchOps < previous.totalSearchOps →
      searchOpsDiff previous current = 0 ∧
      (calculateCurrentMetrics t).searchRate = 0) := by
  refine ⟨calculateCurrentMetrics_nonneg t, calculateCurrentMetrics_nonneg _,
    fun hrev hdec => ?_, fun hrev hdec => ?_⟩
  · have hdiff : indexingOpsDiff previous current = 0 :=
      max_eq_left (by linarith)
    refine ⟨hdiff, ?_⟩
    rw [calculateCurrentMetrics_cons hrev]
    unfold deriveMetrics
    split
    · rfl
    · dsimp only
      have hraw : indexingRateRaw previous current = 0 := by
        unfold indexingRateRaw
        rw [hdiff, zero_div, max_self]
      rw [hraw]
      rw [if_neg (by norm_num [MAX_RATE_PER_SEC])]
  · have hdiff : searchOpsDiff previous current = 0 :=
      max_eq_left (by linarith)
    refine ⟨hdiff, ?_⟩
    rw [calculateCurrentMetrics_cons hrev]
    unfold deriveMetrics
    split
    · rfl
    · dsimp only
      have hraw : searchRateRaw previous current = 0 := by
        unfold searchRateRaw
        rw [hdiff, zero_div, max_self]
      rw [hraw]
      rw [if_neg (by norm_num [MAX_RATE_PER_SEC])]

/-- Witness: the counter-reset conjuncts of the nonnegativity theorem at a
concrete history whose counters decrease (1000 → 400). -/
theorem metrics_nonneg_and_reset_clamped_witness :
    (calculateCurrentMetrics
      { history := [{ timestamp := 0, totalIndexingOps := 1000, totalSearchOps := 1000,
                      totalIndexTimeMs := 5000, totalSearchTimeMs := 5000 },
                    { timestamp := 10000, totalIndexingOps := 400, totalSearchOps := 400,
                      totalIndexTimeMs := 100, totalSearchTimeMs := 100 }],
        chartData := [] }).indexingRate = 0 ∧
    (calculateCurrentMetrics
      { history := [{ timestamp := 0, totalIndexingOps := 1000, totalSearchOps := 1000,
                      totalIndexTimeMs := 5000, totalSearchTimeMs := 5000 },
                    { timestamp := 10000, totalIndexingOps := 400, totalSearchOps := 400,
                      totalIndexTimeMs := 100, totalSearchTimeMs := 100 }],
        chartData := [] }).searchRate = 0 := by
  have h := metrics_nonneg_and_reset_clamped
    { history := [{ timestamp := 0, totalIndexingOps := 1000, totalSearchOps := 1000,
                    totalIndexTimeMs := 5000, totalSearchTimeMs := 5000 },
                  { timestamp := 10000, totalIndexingOps := 400, totalSearchOps := 400,
                    totalIndexTimeMs := 100, totalSearchTimeMs := 100 }],
      chartData := [] }
    { timestamp := 10000, totalIndexingOps := 400, totalSearchOps := 400,
      totalIndexTimeMs := 100, totalSearchTimeMs := 100 }
    { timestamp := 0, totalIndexingOps := 1000, totalSearchOps := 1000,
      totalIndexTimeMs := 5000, totalSearchTimeMs := 5000 } [] 0 0 0 0 0
  exact ⟨(h.2.2.1 (by rfl) (by norm_num)).2, (h.2.2.2 (by rfl) (by norm_num)).2⟩

end ESMon

namespace ESMon

/-- **C7** — sanity caps: on a trusted interval, a computed rate exceeding
50,000,000 ops/sec is reported as 0, and a computed latency exceeding
300,000 ms is reported as exactly 300,000 ms, for indexing and search
independently. -/
theorem sanity_caps_applied
    (t : PerformanceTracker) (current previous : PerformanceHistory)
    (rest : List PerformanceHistory)
    (hrev : t.history.reverse = current :: previous :: rest)
    (hmin : MIN_TIME_DIFF_SECONDS ≤ timeDiffSeconds previous current) :
    (MAX_RATE_PER_SEC < indexingRateRaw previous current →
      (calculateCurrentMetrics t).indexingRate = 0) ∧
    (MAX_RATE_PER_SEC < searchRateRaw previous current →
      (calculateCurrentMetrics t).searchRate = 0) ∧
    (MAX_LATENCY_MS < indexLatencyRaw previous current →
      (calculateCurrentMetrics t).indexLatency = MAX_LATENCY_MS) ∧
    (MAX_LATENCY_MS < searchLatencyRaw previous current →
      (calculateCurrentMetrics t).searchLatency = MAX_LATENCY_MS) := by
  rw [calculateCurrentMetrics_cons hrev, deriveMetrics_trusted hmin]
  exact ⟨fun h => by simp [if_pos h], fun h => by simp [if_pos h],
    fun h => by simp [if_pos h], fun h => by simp [if_pos h]⟩

/-- Witness for the sanity caps: one history with an impossible indexing and
search rate (10^12 ops in 1 s), one with an impossible latency
(10^6 ms for a single op); the capped outputs are 0 and 300,000. -/
theorem sanity_caps_applied_witness :
    ((calculateCurrentMetrics
      { history := [{ timestamp := 0, totalIndexingOps := 0, totalSearchOps := 0,
                      totalIndexTimeMs := 0, totalSearchTimeMs := 0 },
                    { timestamp := 1000, totalIndexingOps := 1000000000000,
                      totalSearchOps := 1000000000000,
                      totalIndexTimeMs := 0, totalSearchTimeMs := 0 }],
        chartData := [] }).indexingRate = 0 ∧
     (calculateCurrentMetrics
      { history := [{ timestamp := 0, totalIndexingOps := 0, totalSearchOps := 0,
                      totalIndexTimeMs := 0, totalSearchTimeMs := 0 },
                    { timestamp := 1000, totalIndexingOps := 1000000000000,
                      totalSearchOps := 1000000000000,
                      totalIndexTimeMs := 0, totalSearchTimeMs := 0 }],
        chartData := [] }).searchRate = 0) ∧
    ((calculateCurrentMetrics
      { history := [{ timestamp := 0, totalIndexingOps := 0, totalSearchOps := 0,
                      totalIndexTimeMs := 0, totalSearchTimeMs := 0 },
                    { timestamp := 1000, totalIndexingOps := 1, totalSearchOps := 1,
                      totalIndexTimeMs := 1000000, totalSearchTimeMs := 1000000 }],
        chartData := [] }).indexLatency = MAX_LATENCY_MS ∧
     (calculateCurrentMetrics
      { history := [{ timestamp := 0, totalIndexingOps := 0, totalSearchOps := 0,
                      totalIndexTimeMs := 0, totalSearchTimeMs := 0 },
                    { timestamp := 1000, totalIndexingOps := 1, totalSearchOps := 1,
                      totalIndexTimeMs := 1000000, totalSearchTimeMs := 1000000 }],
        chartData := [] }).searchLatency = MAX_LATENCY_MS) := by
  have hfast := sanity_caps_applied
    { history := [{ timestamp := 0, totalIndexingOps := 0, totalSearchOps := 0,
                    totalIndexTimeMs := 0, totalSearchTimeMs := 0 },
                  { timestamp := 1000, totalIndexingOps := 1000000000000,
                    totalSearchOps := 1000000000000,
                    totalIndexTimeMs := 0, totalSearchTimeMs := 0 }],
      chartData := [] }
    { timestamp := 1000, totalIndexingOps := 1000000000000,
      totalSearchOps := 1000000000000, totalIndexTimeMs := 0, totalSearchTimeMs := 0 }
    { timestamp := 0, totalIndexingOps := 0, totalSearchOps := 0,
      totalIndexTimeMs := 0, totalSearchTimeMs := 0 } []
    (by rfl) (by norm_num [timeDiffSeconds, MIN_TIME_DIFF_SECONDS])
  have hslow := sanity_caps_applied
    { history := [{ timestamp := 0, totalIndexingOps := 0, totalSearchOps := 0,
                    totalIndexTimeMs := 0, totalSearchTimeMs := 0 },
                  { timestamp := 1000, totalIndexingOps := 1, totalSearchOps := 1,
                    totalIndexTimeMs := 1000000, totalSearchTimeMs := 1000000 }],
      chartData := [] }
    { timestamp := 1000, totalIndexingOps := 1, totalSearchOps := 1,
      totalIndexTimeMs := 1000000, totalSearchTimeMs := 1000000 }
    { timestamp := 0, totalIndexingOps := 0, totalSearchOps := 0,
      totalIndexTimeMs := 0, totalSearchTimeMs := 0 } []
    (by rfl) (by norm_num [timeDiffSeconds, MIN_TIME_DIFF_SECONDS])
  refine ⟨⟨hfast.1 ?_, hfast.2.1 ?_⟩, ⟨hslow.2.2.1 ?_, hslow.2.2.2 ?_⟩⟩
  · norm_num [indexingRateRaw, indexingOpsDiff, timeDiffSeconds, MAX_RATE_PER_SEC]
  · norm_num [searchRateRaw, searchOpsDiff, timeDiffSeconds, MAX_RATE_PER_SEC]
  · norm_num [indexLatencyRaw, indexTimeDiffMs, indexingOpsDiff, MAX_LATENCY_MS]
  · norm_num [searchLatencyRaw, searchTimeDiffMs, searchOpsDiff, MAX_LATENCY_MS]


/-- The JS push-then-`slice(-n)` idiom leaves at most `n` elements. -/
theorem truncate_length_le {α : Type} (l : List α) (n : Nat) :
    (if n < l.length then sliceLast l n else l).length ≤ n := by
  split
  · simp only [sliceLast, List.length_drop]
    omega
  · next h => omega

/-- **C8** — after every `addSnapshot` call, on any prior tracker state, the
history buffer holds at most 120 entries and the chart buffer at most 60. -/
theorem buffers_bounded
    (t : PerformanceTracker)
    (timestamp totalIndexingOps totalSearchOps totalIndexTimeMs totalSearchTimeMs : ℚ) :
    (addSnapshot t timestamp totalIndexingOps totalSearchOps
        totalIndexTimeMs totalSearchTimeMs).1.history.length ≤ maxHistorySize ∧
    (addSnapshot t timestamp totalIndexingOps totalSearchOps
        totalIndexTimeMs totalSearchTimeMs).1.chartData.length ≤ maxChartSize := by
  unfold addSnapshot addChartDataPoint
  dsimp only
  exact ⟨truncate_length_le _ _, truncate_length_le _ _⟩

end ESMon

namespace ESMon

/-- A JSON-like snapshot value (`MonitoringSnapshot` and its nested node /
index statistics are plain data objects in the source; the alert engine walks
them by dotted field paths, so the model keeps them as a dynamic tree). -/
inductive JValue where
  | jnull
  | jnum (q : ℚ)
  | jstr (s : String)
  | jobj (fields : List (String × JValue))
  | jarr (elems : List JValue)

/-- Property access `value[part]` as the path walker uses it: defined only on
non-null objects (`value && typeof value === 'object' && part in value`);
array index keys are never used by any rule path and are not modelled. -/
def getField : JValue → String → Option JValue
  | JValue.jobj fields, key => fields.lookup key
  | _, _ => none

/-- The path-walking loop of `extractMetricValue` (splitting happens at the
call site): descend one object field per path part, failing on a missing
field or a non-object intermediate value. -/
def walkPath : List String → JValue → Option JValue
  | [], v => some v
  | p :: rest, v =>
    match getField v p with
    | some v2 => walkPath rest v2
    | none => none

/-- JS truthiness for the snapshot values that occur (no NaN, no booleans). -/
def jsTruthy : JValue → Bool
  | JValue.jnull => false
  | JValue.jnum q => !(q == 0)
  | JValue.jstr s => !(s == "")
  | JValue.jobj _ => true
  | JValue.jarr _ => true

/-- JS `Object.values`, for the object shapes that occur. -/
def objValues : JValue → List JValue
  | JValue.jobj fields => fields.map Prod.snd
  | _ => []

/-- A resolved metric value (`number | string` after the `null` check).
`negInf` is JS `-Infinity`, produced by `Math.max(...[])` on an empty index
list; `other` is a non-primitive walked value, which the numeric comparison
branch coerces to NaN. -/
inductive MetricValue where
  | num (q : ℚ)
  | str (s : String)
  | negInf
  | other
  deriving DecidableEq, Repr

/-- `node.a?.b?.c ?? 0`: optional chaining with a zero default; the node
statistics fields so addressed are numeric in the input schema. -/
def numFieldOr0 (v : JValue) (path : List String) : ℚ :=
  match walkPath path v with
  | some (JValue.jnum q) => q
  | _ => 0

/-- `node.a?.b?.c` as an optional numeric field (for `??` chains). -/
def numFieldOpt (v : JValue) (path : List String) : Option ℚ :=
  match walkPath path v with
  | some (JValue.jnum q) => some q
  | _ => none

/-- Digits to a natural number. -/
def digitsToNat (cs : List Char) : Nat :=
  cs.foldl (fun acc c => acc * 10 + (c.toNat - '0'.toNat)) 0

/-- JS `parseInt(x, 10)` for the snapshot fields it is applied to
(`index.pri`, `index['docs.count']`, nonnegative decimal strings): the
leading digits of a string, or a number truncated; `none` models `NaN`. -/
def parseIntJS : Option JValue → Option ℤ
  | some (JValue.jstr s) =>
    let ds := s.toList.takeWhile Char.isDigit
    if ds.isEmpty then none else some (digitsToNat ds : ℤ)
  | some (JValue.jnum q) => some ⌊q⌋
  | _ => none

/-- JS `x || d` on a number: `d` when `x` is 0 (falsy), `x` otherwise. -/
def jsOrZ (x : Option ℤ) (d : ℤ) : ℤ :=
  match x with
  | some v => if v = 0 then d else v
  | none => d

/-- JS `x || d` on an optional rational (`existingAlert.count || 1`). -/
def jsOrQ (x : Option ℚ) (d : ℚ) : ℚ :=
  match x with
  | some v => if v = 0 then d else v
  | none => d

/-- Modelled from the spec: `parseDiskSizeToBytes` lives in `utils/format`,
which is absent from the sources here.  Per §4.2 and the source comment, it
turns a `_cat/indices` size string such as `"20.4gb"` into bytes: a decimal
number followed by a binary-unit suffix; anything unparsable is 0. -/
def parseDiskSizeToBytes (v : Option JValue) : ℚ :=
  match v with
  | some (JValue.jstr s) =>
    let cs := s.toLower.toList
    let isNumChar : Char → Bool := fun c => c.isDigit || c == '.'
    let numPart := cs.takeWhile isNumChar
    let unitPart := cs.dropWhile isNumChar
    let intDigits := numPart.takeWhile (fun c => c != '.')
    let fracDigits := (numPart.dropWhile (fun c => c != '.')).drop 1
    let mantissa : ℚ :=
      (digitsToNat intDigits : ℚ) +
        (digitsToNat fracDigits : ℚ) / ((10:ℚ) ^ fracDigits.length)
    let mult : ℚ :=
      if unitPart = ['b'] then 1
      else if unitPart = ['k', 'b'] then 1024
      else if unitPart = ['m', 'b'] then 1024 ^ 2
      else if unitPart = ['g', 'b'] then 1024 ^ 3
      else if unitPart = ['t', 'b'] then 1024 ^ 4
      else if unitPart = ['p', 'b'] then 1024 ^ 5
      else 0
    if intDigits.isEmpty && fracDigits.isEmpty then 0 else mantissa * mult
  | _ => 0

/-- JS `Math.max(...list)`: `-Infinity` on an empty list. -/
def jsMax (l : List ℚ) : MetricValue :=
  match l with
  | [] => MetricValue.negInf
  | x :: xs => MetricValue.num (xs.foldl max x)

/-- `data.nodeStats?.nodes`, with the source's falsy guard
(`if (!nodeStats?.nodes) return null`). -/
def nodeStatsNodes (data : JValue) : Option JValue :=
  match (getField data "nodeStats").bind (fun ns => getField ns "nodes") with
  | some nodes => if jsTruthy nodes then some nodes else none
  | none => none

/-- JS `path.split('.')`, written structurally so that concrete snapshots
evaluate inside proofs. -/
def splitPathAux : List Char → List Char → List String
  | [], acc => [String.mk acc.reverse]
  | c :: rest, acc =>
    if c = '.' then String.mk acc.reverse :: splitPathAux rest []
    else splitPathAux rest (c :: acc)

/-- `path.split('.')`. -/
def splitPath (s : String) : List String :=
  splitPathAux s.toList []

/-- `extractMetricValue` (alert engine, lines 497-575): derived resolvers for
the cluster-resource paths and the two index aggregates first, then the plain
dotted-path walk; `none` is the source's `null` ("no value"). -/
def extractMetricValue (data : JValue) (path : String) : Option MetricValue :=
  if path = "clusterResources.storagePercent" ∨ path = "clusterResources.jvmHeap" ∨
      path = "clusterResources.cpuUsage" then
    match nodeStatsNodes data with
    | none => none
    | some nodesVal =>
      let nodes := objValues nodesVal
      if nodes.length = 0 then none
      else if path = "clusterResources.storagePercent" then
        let storage := nodes.foldl (fun acc node =>
          let total := numFieldOr0 node ["fs", "total", "total_in_bytes"]
          let available := numFieldOr0 node ["fs", "total", "available_in_bytes"]
          let used := total - available
          (acc.1 + total, acc.2 + used)) ((0:ℚ), (0:ℚ))
        some (MetricValue.num (if 0 < storage.1 then storage.2 / storage.1 * 100 else 0))
      else if path = "clusterResources.jvmHeap" then
        let jvmValues := (nodes.map (fun node =>
          let used := numFieldOr0 node ["jvm", "mem", "heap_used_in_bytes"]
          let mx := numFieldOr0 node ["jvm", "mem", "heap_max_in_bytes"]
          if 0 < mx then used / mx * 100 else 0)).filter (fun h => decide (0 < h))
        some (MetricValue.num
          (if 0 < jvmValues.length then jvmValues.sum / (jvmValues.length : ℚ) else 0))
      else
        let cpuValues := (nodes.map (fun node =>
          (((numFieldOpt node ["os", "cpu", "percent"]).orElse
            (fun _ => numFieldOpt node ["process", "cpu", "percent"])).getD 0))).filter
              (fun c => decide (0 < c))
        some (MetricValue.num
          (if 0 < cpuValues.length then cpuValues.sum / (cpuValues.length : ℚ) else 0))
  else if path = "indices.maxShardSize" then
    match getField data "indices" with
    | some (JValue.jarr elems) =>
      some (jsMax (elems.map (fun index =>
        let primarySizeBytes := parseDiskSizeToBytes (getField index "pri.store.size")
        let priCount := jsOrZ (parseIntJS (getField index "pri")) 1
        if 0 < priCount then primarySizeBytes / (priCount : ℚ) else 0)))
    | _ => some (MetricValue.num 0)
  else if path = "indices.maxDocCount" then
    match getField data "indices" with
    | some (JValue.jarr elems) =>
      some (jsMax (elems.map (fun index =>
        ((jsOrZ (parseIntJS (getField index "docs.count")) 0 : ℤ) : ℚ))))
    | _ => some (MetricValue.num 0)
  else
    match walkPath (splitPath path) data with
    | some (JValue.jnum q) => some (MetricValue.num q)
    | some (JValue.jstr s) => some (MetricValue.str s)
    | some JValue.jnull => none
    | some _ => some MetricValue.other
    | none => none

end ESMon

namespace ESMon

/-- `AlertSeverity` from `types/alerts.ts`. -/
inductive AlertSeverity where
  | info
  | warning
  | critical
  deriving DecidableEq, Repr

/-- `AlertCondition` from `types/alerts.ts`. -/
inductive AlertCondition where
  | greater_than
  | less_than
  | equals
  | not_equals
  deriving DecidableEq, Repr

/-- `AlertStatus` from `types/alerts.ts`. -/
inductive AlertStatus where
  | active
  | resolved
  | snoozed
  deriving DecidableEq, Repr

/-- Rule category from `types/alerts.ts`. -/
inductive AlertCategory where
  | cluster
  | performance
  | resource
  | index
  deriving DecidableEq, Repr

/-- `AlertRule` from `types/alerts.ts`. -/
structure AlertRule where
  id : String
  name : String
  description : String
  severity : AlertSeverity
  threshold : ℚ
  unit : String
  metricPath : String
  condition : AlertCondition
  enabled : Bool
  category : AlertCategory
  cooldownMinutes : ℚ
  deriving DecidableEq, Repr

/-- `AlertInstance` from `types/alerts.ts`; ISO timestamp strings are
modelled as the rational epoch-milliseconds they are produced from. -/
structure AlertInstance where
  id : String
  ruleId : String
  ruleName : String
  severity : AlertSeverity
  status : AlertStatus
  message : String
  description : String
  currentValue : MetricValue
  threshold : ℚ
  unit : String
  triggeredAt : ℚ
  firstTriggeredAt : Option ℚ
  count : Option ℚ
  resolvedAt : Option ℚ
  snoozedUntil : Option ℚ
  category : AlertCategory
  clusterName : Option String
  deriving DecidableEq, Repr

/-- `AlertSettings` from `types/alerts.ts`. -/
structure AlertSettings where
  enabled : Bool
  browserNotifications : Bool
  soundAlerts : Bool
  maxHistoryDays : ℚ
  deriving DecidableEq, Repr

/-- The mutable fields of the `AlertEngine` class.  `activeAlerts` is a JS
`Map` keyed by the instance id, kept here as its insertion-ordered value
list; `alertHistory` is newest-first (`unshift` prepends); the two timestamp
maps are association lists keyed by rule id. -/
structure AlertEngineState where
  rules : List AlertRule
  activeAlerts : List AlertInstance
  alertHistory : List AlertInstance
  settings : AlertSettings
  lastEvaluationTime : List (String × ℚ)
  alertConditionStartTime : List (String × ℚ)
  deriving DecidableEq, Repr

/-- `ALERT_DELAY_MS = 30 * 1000`: the 30-second dwell before materializing. -/
def ALERT_DELAY_MS : ℚ := 30 * 1000

/-- JS `Map.set`: replace in place when the key exists, else append. -/
def setAssoc (m : List (String × ℚ)) (key : String) (v : ℚ) : List (String × ℚ) :=
  if (m.lookup key).isSome then
    m.map (fun p => if p.1 == key then (key, v) else p)
  else m ++ [(key, v)]

/-- JS `Map.delete`. -/
def eraseAssoc (m : List (String × ℚ)) (key : String) : List (String × ℚ) :=
  m.filter (fun p => !(p.1 == key))

/-- `activeAlerts.set(alert.id, alert)`: replace in place when an entry with
that id exists, else append. -/
def setById (l : List AlertInstance) (inst : AlertInstance) : List AlertInstance :=
  if l.any (fun a => a.id == inst.id) then
    l.map (fun a => if a.id == inst.id then inst else a)
  else l ++ [inst]

/-- The source mutates an `AlertInstance` object that is referenced both from
the `activeAlerts` map and from the `alertHistory` array; instance ids are
unique, so the aliasing is modelled by applying the update to every list that
can hold the object, matched by id. -/
def updateAlertEverywhere (s : AlertEngineState) (alertId : String)
    (f : AlertInstance → AlertInstance) : AlertEngineState :=
  { s with
      activeAlerts := s.activeAlerts.map (fun a => if a.id == alertId then f a else a)
      alertHistory := s.alertHistory.map (fun a => if a.id == alertId then f a else a) }

/-- `evaluateRuleCondition` (lines 578-618): disabled rules and unresolved
values evaluate to false; string values support the special-cased
`equals`/`not_equals` cluster-status checks; numeric values support the four
comparisons, with a `|v| < 0.001` tolerance for `equals` against a zero
threshold.  A JS `-Infinity` value (empty index list) and the NaN coercion of
a non-primitive value follow IEEE comparison semantics. -/
def evaluateRuleCondition (rule : AlertRule) (data : JValue) : Bool :=
  if !rule.enabled then false
  else
    match extractMetricValue data rule.metricPath with
    | none => false
    | some (MetricValue.str s) =>
      match rule.condition with
      | AlertCondition.equals =>
        if rule.id == "cluster-status-red" then s == "red"
        else if rule.id == "cluster-status-yellow" then s == "yellow"
        else false
      | AlertCondition.not_equals =>
        if rule.id == "cluster-status-red" then !(s == "red")
        else if rule.id == "cluster-status-yellow" then !(s == "yellow")
        else false
      | _ => false
    | some (MetricValue.num v) =>
      match rule.condition with
      | AlertCondition.greater_than => decide (rule.threshold < v)
      | AlertCondition.less_than => decide (v < rule.threshold)
      | AlertCondition.equals =>
        if rule.threshold = 0 then decide (|v| < 1 / 1000)
        else decide (v = rule.threshold)
      | AlertCondition.not_equals => decide (v ≠ rule.threshold)
    | some MetricValue.negInf =>
      match rule.condition with
      | AlertCondition.greater_than => false
      | AlertCondition.less_than => true
      | AlertCondition.equals => false
      | AlertCondition.not_equals => true
    | some MetricValue.other => false

/-- `evaluateRuleForNewAlert`: condition only, no cooldown. -/
def evaluateRuleForNewAlert (rule : AlertRule) (data : JValue) : Bool :=
  evaluateRuleCondition rule data

/-- `createAlertInstance` (lines 626-646). -/
def createAlertInstance (rule : AlertRule) (currentValue : MetricValue)
    (clusterName : Option String) (now : ℚ) : AlertInstance :=
  { id := rule.id ++ "-" ++ toString now
    ruleId := rule.id
    ruleName := rule.name
    severity := rule.severity
    status := AlertStatus.active
    message := rule.name
    description := rule.description
    currentValue := currentValue
    threshold := rule.threshold
    unit := rule.unit
    triggeredAt := now
    firstTriggeredAt := some now
    count := some 1
    resolvedAt := none
    snoozedUntil := none
    category := rule.category
    clusterName := clusterName }

/-- The re-activation mutation of an existing instance whose condition holds
while its status is not `active` (lines 666-671). -/
def reactivate (currentValue : MetricValue) (now : ℚ) (a : AlertInstance) : AlertInstance :=
  { a with
      currentValue := currentValue
      status := AlertStatus.active
      resolvedAt := none
      triggeredAt := now
      count := some (jsOrQ a.count 1 + 1) }

/-- One iteration of the `for (const rule of this.rules)` loop of
`evaluateAlerts` (lines 655-712), threading the engine state and the
`newAlerts` accumulator.  Browser notifications are a stateless side effect
and are not modelled. -/
def evaluateAlertsStep (data : JValue) (clusterName : Option String) (now : ℚ)
    (acc : AlertEngineState × List AlertInstance) (rule : AlertRule) :
    AlertEngineState × List AlertInstance :=
  let s := acc.1
  let newAlerts := acc.2
  let conditionMet := evaluateRuleCondition rule data
  let existingAlert := s.activeAlerts.find? (fun a => a.ruleId == rule.id)
  if conditionMet then
    match existingAlert with
    | some existing =>
      match extractMetricValue data rule.metricPath with
      | some currentValue =>
        if existing.status ≠ AlertStatus.active then
          (updateAlertEverywhere s existing.id (reactivate currentValue now),
           newAlerts ++ [reactivate currentValue now existing])
        else
          (updateAlertEverywhere s existing.id (fun a => { a with currentValue := currentValue }),
           newAlerts)
      | none => (s, newAlerts)
    | none =>
      match s.alertConditionStartTime.lookup rule.id with
      | some conditionStartTime =>
        if conditionStartTime = 0 then
          ({ s with alertConditionStartTime := setAssoc s.alertConditionStartTime rule.id now },
           newAlerts)
        else if ALERT_DELAY_MS ≤ now - conditionStartTime then
          if evaluateRuleForNewAlert rule data then
            match extractMetricValue data rule.metricPath with
            | some currentValue =>
              let alertInstance := createAlertInstance rule currentValue clusterName now
              ({ s with
                  activeAlerts := setById s.activeAlerts alertInstance
                  alertHistory := alertInstance :: s.alertHistory
                  lastEvaluationTime := setAssoc s.lastEvaluationTime rule.id now
                  alertConditionStartTime := eraseAssoc s.alertConditionStartTime rule.id },
               newAlerts ++ [alertInstance])
            | none => (s, newAlerts)
          else (s, newAlerts)
        else (s, newAlerts)
      | none =>
        ({ s with alertConditionStartTime := setAssoc s.alertConditionStartTime rule.id now },
         newAlerts)
  else
    let s1 := { s with alertConditionStartTime := eraseAssoc s.alertConditionStartTime rule.id }
    match s1.activeAlerts.find? (fun a => a.ruleId == rule.id && a.status == AlertStatus.active) with
    | some activeAlert =>
      (updateAlertEverywhere s1 activeAlert.id
        (fun a => { a with status := AlertStatus.resolved, resolvedAt := some now }),
       newAlerts)
    | none => (s1, newAlerts)

/-- `evaluateAlerts` (lines 649-719): nothing when alerts are globally
disabled, else the per-rule loop; returns the updated engine state and the
newly (re)triggered instances.  Resolved alerts are left in the active map
("Don't remove resolved alerts from activeAlerts map"). -/
def evaluateAlerts (s : AlertEngineState) (data : JValue) (clusterName : Option String)
    (now : ℚ) : AlertEngineState × List AlertInstance :=
  if !s.settings.enabled then (s, [])
  else s.rules.foldl (evaluateAlertsStep data clusterName now) (s, [])

/-- `snoozeAlert` (lines 780-789): only an `active` instance can be snoozed;
`snoozedUntil` is set `minutes` minutes past now. -/
def snoozeAlert (s : AlertEngineState) (alertId : String) (minutes : ℚ) (now : ℚ) :
    AlertEngineState :=
  match s.activeAlerts.find? (fun a => a.id == alertId) with
  | some alert =>
    if alert.status = AlertStatus.active then
      updateAlertEverywhere s alertId (fun a =>
        { a with
            status := AlertStatus.snoozed
            snoozedUntil := some (now + minutes * 60000) })
    else s
  | none => s

/-- `dismissAlert`: remove the instance from the active map (history keeps it). -/
def dismissAlert (s : AlertEngineState) (alertId : String) : AlertEngineState :=
  { s with activeAlerts := s.activeAlerts.filter (fun a => !(a.id == alertId)) }

/-- `getAlertHistory`: a copy of the history list. -/
def getAlertHistory (s : AlertEngineState) : List AlertInstance :=
  s.alertHistory

end ESMon

namespace ESMon

/-- A rule whose condition evaluates to true is enabled and has a resolved
value (the disabled / no-value paths return false). -/
theorem condition_true_extract {rule : AlertRule} {data : JValue}
    (h : evaluateRuleCondition rule data = true) :
    rule.enabled = true ∧ ∃ v, extractMetricValue data rule.metricPath = some v := by
  unfold evaluateRuleCondition at h
  by_cases hen : rule.enabled
  · refine ⟨hen, ?_⟩
    cases hv : extractMetricValue data rule.metricPath
    · rw [hv] at h
      simp [hen] at h
    · exact ⟨_, rfl⟩
  · simp [hen] at h

/-- A disabled rule, or a rule whose value does not resolve, has a false
condition. -/
theorem condition_false_of_skip {rule : AlertRule} {data : JValue}
    (h : rule.enabled = false ∨ extractMetricValue data rule.metricPath = none) :
    evaluateRuleCondition rule data = false := by
  unfold evaluateRuleCondition
  rcases h with h | h
  · simp [h]
  · simp [h]

/-- A deleted key no longer resolves in the timestamp map. -/
theorem lookup_eraseAssoc_self (m : List (String × ℚ)) (key : String) :
    (eraseAssoc m key).lookup key = none := by
  induction m with
  | nil => rfl
  | cons p rest ih =>
    simp only [eraseAssoc, List.filter] at ih ⊢
    cases hp : (p.1 == key) with
    | true => simpa [hp] using ih
    | false =>
      have hne : p.1 ≠ key := beq_eq_false_iff_ne.mp hp
      have hk : (key == p.1) = false := beq_eq_false_iff_ne.mpr (Ne.symm hne)
      simp only [hp, Bool.not_false, List.lookup, hk]
      exact ih

/-- **C9** — for an enabled rule with a numeric resolved value, condition
evaluation supports `greater_than`, `less_than`, `equals` and `not_equals`
against the rule's threshold, and `equals` with threshold exactly 0 uses the
`|v| < 0.001` epsilon tolerance instead of exact equality. -/
theorem numeric_condition_semantics (rule : AlertRule) (data : JValue) (v : ℚ)
    (hen : rule.enabled = true)
    (hv : extractMetricValue data rule.metricPath = some (MetricValue.num v)) :
    (rule.condition = AlertCondition.greater_than →
      evaluateRuleCondition rule data = decide (rule.threshold < v)) ∧
    (rule.condition = AlertCondition.less_than →
      evaluateRuleCondition rule data = decide (v < rule.threshold)) ∧
    (rule.condition = AlertCondition.equals → rule.threshold = 0 →
      evaluateRuleCondition rule data = decide (|v| < 1 / 1000)) ∧
    (rule.condition = AlertCondition.equals → rule.threshold ≠ 0 →
      evaluateRuleCondition rule data = decide (v = rule.threshold)) ∧
    (rule.condition = AlertCondition.not_equals →
      evaluateRuleCondition rule data = decide (v ≠ rule.threshold)) :=
  ⟨fun hc => by simp [evaluateRuleCondition, hen, hv, hc],
   fun hc => by simp [evaluateRuleCondition, hen, hv, hc],
   fun hc hz => by simp [evaluateRuleCondition, hen, hv, hc, hz],
   fun hc hz => by simp [evaluateRuleCondition, hen, hv, hc, hz],
   fun hc => by simp [evaluateRuleCondition, hen, hv, hc]⟩

end ESMon

namespace ESMon

/-- A representative performance rule: indexing rate above 100 ops/s. -/
def sampleRule : AlertRule :=
  { id := "r1"
    name := "High Indexing"
    description := "indexing rate too high"
    severity := AlertSeverity.critical
    threshold := 100
    unit := "ops"
    metricPath := "performanceMetrics.indexingRate"
    condition := AlertCondition.greater_than
    enabled := true
    category := AlertCategory.performance
    cooldownMinutes := 0 }

/-- The same rule, disabled. -/
def sampleRuleDisabled : AlertRule :=
  { sampleRule with enabled := false }

/-- A zero-threshold `equals` rule (the epsilon-tolerance case). -/
def zeroEqualsRule : AlertRule :=
  { sampleRule with id := "r0", condition := AlertCondition.equals, threshold := 0 }

/-- A snapshot on which `sampleRule`'s condition holds (rate 150). -/
def dataHigh : JValue :=
  JValue.jobj [("performanceMetrics", JValue.jobj [("indexingRate", JValue.jnum 150)])]

/-- A snapshot on which `sampleRule`'s condition does not hold (rate 50). -/
def dataLow : JValue :=
  JValue.jobj [("performanceMetrics", JValue.jobj [("indexingRate", JValue.jnum 50)])]

/-- A snapshot with indexing rate exactly 0. -/
def dataZero : JValue :=
  JValue.jobj [("performanceMetrics", JValue.jobj [("indexingRate", JValue.jnum 0)])]

/-- Alerting enabled, notifications on. -/
def settingsOn : AlertSettings :=
  { enabled := true
    browserNotifications := true
    soundAlerts := false
    maxHistoryDays := 7 }

/-- An active instance of `sampleRule`, as materialized at t = 1000 ms. -/
def sampleActiveInstance : AlertInstance :=
  { id := "a1"
    ruleId := "r1"
    ruleName := "High Indexing"
    severity := AlertSeverity.critical
    status := AlertStatus.active
    message := "High Indexing"
    description := "indexing rate too high"
    currentValue := MetricValue.num 150
    threshold := 100
    unit := "ops"
    triggeredAt := 1000
    firstTriggeredAt := some 1000
    count := some 1
    resolvedAt := none
    snoozedUntil := none
    category := AlertCategory.performance
    clusterName := none }

/-- An engine holding one disabled rule, a live active instance for it, and a
pending dwell tracker entry. -/
def disabledRuleState : AlertEngineState :=
  { rules := [sampleRuleDisabled]
    activeAlerts := [sampleActiveInstance]
    alertHistory := [sampleActiveInstance]
    settings := settingsOn
    lastEvaluationTime := []
    alertConditionStartTime := [("r1", 5000)] }

/-- Witness for the numeric condition semantics: the zero-threshold `equals`
rule fires on a value of exactly 0 through the epsilon branch. -/
theorem numeric_condition_semantics_witness :
    evaluateRuleCondition zeroEqualsRule dataZero = true := by
  have h := (numeric_condition_semantics zeroEqualsRule dataZero 0 (by rfl)
    (by rfl)).2.2.1 (by rfl) (by rfl)
  rw [h]
  norm_num

/-- **C1** (counterexample) — the claim says a disabled rule is skipped with
no state change; on the code, one `evaluateAlerts` tick of an engine whose
only rule is disabled clears that rule's dwell tracker and resolves its
active instance. -/
theorem skip_no_state_change_counterexample :
    ((evaluateAlerts disabledRuleState dataHigh none 40000).1.alertConditionStartTime.lookup
        "r1" = none) ∧
    ((evaluateAlerts disabledRuleState dataHigh none 40000).1.activeAlerts.map
        (fun a => (a.id, a.status))) = [("a1", AlertStatus.resolved)] := by
  decide

/-- **C1** (amended) — a rule that is disabled or whose metric value cannot
be resolved is treated as condition-false by the per-rule loop body: no alert
is emitted for the rule this tick, but its dwell tracker is cleared and a
live active instance for it is transitioned to `resolved` with `resolvedAt`
set (an engine with no active instance for the rule keeps its active set
unchanged). -/
theorem disabled_or_unresolved_is_condition_false
    (data : JValue) (clusterName : Option String) (now : ℚ)
    (s : AlertEngineState) (ns : List AlertInstance) (rule : AlertRule)
    (h : rule.enabled = false ∨ extractMetricValue data rule.metricPath = none) :
    (evaluateAlertsStep data clusterName now (s, ns) rule).2 = ns ∧
    ((evaluateAlertsStep data clusterName now (s, ns) rule).1.alertConditionStartTime.lookup
        rule.id = none) ∧
    (∀ a, s.activeAlerts.find?
        (fun x => x.ruleId == rule.id && x.status == AlertStatus.active) = some a →
      ∃ b ∈ (evaluateAlertsStep data clusterName now (s, ns) rule).1.activeAlerts,
        b.id = a.id ∧ b.status = AlertStatus.resolved ∧ b.resolvedAt = some now) ∧
    (s.activeAlerts.find?
        (fun x => x.ruleId == rule.id && x.status == AlertStatus.active) = none →
      (evaluateAlertsStep data clusterName now (s, ns) rule).1.activeAlerts
        = s.activeAlerts) := by
  have hc : evaluateRuleCondition rule data = false := condition_false_of_skip h
  refine ⟨?_, ?_, ?_, ?_⟩
  · simp only [evaluateAlertsStep, hc]
    cases hfind : s.activeAlerts.find?
        (fun x => x.ruleId == rule.id && x.status == AlertStatus.active) <;>
      simp [hfind]
  · simp only [evaluateAlertsStep, hc]
    cases hfind : s.activeAlerts.find?
        (fun x => x.ruleId == rule.id && x.status == AlertStatus.active) <;>
      simp [hfind, updateAlertEverywhere, lookup_eraseAssoc_self]
  · intro a hfind
    have hmem : a ∈ s.activeAlerts := List.mem_of_find?_eq_some hfind
    refine ⟨{ a with status := AlertStatus.resolved, resolvedAt := some now }, ?_, rfl, rfl, rfl⟩
    simp only [evaluateAlertsStep, hc, Bool.false_eq_true, if_false, hfind]
    simp only [updateAlertEverywhere]
    have := List.mem_map_of_mem
      (fun x => if x.id == a.id then
        { x with status := AlertStatus.resolved, resolvedAt := some now } else x) hmem
    simpa using this
  · intro hfind
    simp [evaluateAlertsStep, hc, hfind, updateAlertEverywhere]

/-- Witness for the amended C1 theorem at the concrete disabled-rule engine. -/
theorem disabled_or_unresolved_is_condition_false_witness :
    (evaluateAlertsStep dataHigh none 40000 (disabledRuleState, []) sampleRuleDisabled).2 = [] ∧
    ((evaluateAlertsStep dataHigh none 40000
      (disabledRuleState, []) sampleRuleDisabled).1.alertConditionStartTime.lookup
        "r1" = none) := by
  have h := disabled_or_unresolved_is_condition_false dataHigh none 40000
    disabledRuleState [] sampleRuleDisabled (Or.inl rfl)
  exact ⟨h.1, h.2.1⟩

end ESMon

namespace ESMon

/-- An engine freshly holding a single rule and no alert state. -/
def mkEngine (rule : AlertRule) (settings : AlertSettings) : AlertEngineState :=
  { rules := [rule]
    activeAlerts := []
    alertHistory := []
    settings := settings
    lastEvaluationTime := []
    alertConditionStartTime := [] }

/-- **C2** — for a rule with no existing instance (positive wall-clock
times, as `Date.now()` yields): if the condition holds at `t1` and again at
`t2` less than 30 s later and then clears at `t3`, no instance is ever
created (no emission, empty active set and history); if instead `t2` is at
least 30 s after `t1` (e.g. 35 s), the second call materializes exactly one
instance with status `active` and occurrence count 1, emits it, records it
in history, and clears the rule's dwell tracker. -/
theorem dwell_threshold_behavior
    (rule : AlertRule) (dataT dataF : JValue) (settings : AlertSettings)
    (cn : Option String) (t1 t2 t3 : ℚ)
    (hen : settings.enabled = true)
    (hcondT : evaluateRuleCondition rule dataT = true)
    (hcondF : evaluateRuleCondition rule dataF = false)
    (ht1 : 0 < t1) :
    (t2 - t1 < ALERT_DELAY_MS →
      (evaluateAlerts (mkEngine rule settings) dataT cn t1).2 = [] ∧
      (evaluateAlerts (evaluateAlerts (mkEngine rule settings) dataT cn t1).1
        dataT cn t2).2 = [] ∧
      (evaluateAlerts (evaluateAlerts (evaluateAlerts (mkEngine rule settings)
        dataT cn t1).1 dataT cn t2).1 dataF cn t3).2 = [] ∧
      (evaluateAlerts (evaluateAlerts (evaluateAlerts (mkEngine rule settings)
        dataT cn t1).1 dataT cn t2).1 dataF cn t3).1.activeAlerts = [] ∧
      (evaluateAlerts (evaluateAlerts (evaluateAlerts (mkEngine rule settings)
        dataT cn t1).1 dataT cn t2).1 dataF cn t3).1.alertHistory = [] ∧
      (evaluateAlerts (evaluateAlerts (evaluateAlerts (mkEngine rule settings)
        dataT cn t1).1 dataT cn t2).1 dataF cn t3).1.alertConditionStartTime = []) ∧
    (ALERT_DELAY_MS ≤ t2 - t1 →
      ∃ v, extractMetricValue dataT rule.metricPath = some v ∧
      (evaluateAlerts (evaluateAlerts (mkEngine rule settings) dataT cn t1).1
        dataT cn t2).2 = [createAlertInstance rule v cn t2] ∧
      (evaluateAlerts (evaluateAlerts (mkEngine rule settings) dataT cn t1).1
        dataT cn t2).1.activeAlerts = [createAlertInstance rule v cn t2] ∧
      (evaluateAlerts (evaluateAlerts (mkEngine rule settings) dataT cn t1).1
        dataT cn t2).1.alertHistory = [createAlertInstance rule v cn t2] ∧
      (createAlertInstance rule v cn t2).status = AlertStatus.active ∧
      (createAlertInstance rule v cn t2).count = some 1 ∧
      (evaluateAlerts (evaluateAlerts (mkEngine rule settings) dataT cn t1).1
        dataT cn t2).1.alertConditionStartTime.lookup rule.id = none) := by
  have hne : ¬ (t1 = 0) := ne_of_gt ht1
  have e1 : evaluateAlerts (mkEngine rule settings) dataT cn t1
      = ({ mkEngine rule settings with alertConditionStartTime := [(rule.id, t1)] }, []) := by
    simp [evaluateAlerts, hen, evaluateAlertsStep, hcondT, mkEngine, setAssoc]
  constructor
  · intro hlt
    have hnge : ¬ (ALERT_DELAY_MS ≤ t2 - t1) := not_le.mpr hlt
    have e2 : evaluateAlerts ({ mkEngine rule settings with
        alertConditionStartTime := [(rule.id, t1)] }) dataT cn t2
        = ({ mkEngine rule settings with alertConditionStartTime := [(rule.id, t1)] }, []) := by
      simp [evaluateAlerts, hen, evaluateAlertsStep, hcondT, mkEngine, hne, hnge]
    have e3 : evaluateAlerts ({ mkEngine rule settings with
        alertConditionStartTime := [(rule.id, t1)] }) dataF cn t3
        = (mkEngine rule settings, []) := by
      simp [evaluateAlerts, hen, evaluateAlertsStep, hcondF, mkEngine, eraseAssoc]
    rw [e1]
    simp only [e2, e3]
    simp [mkEngine]
  · intro hge
    obtain ⟨-, v, hv⟩ := condition_true_extract hcondT
    refine ⟨v, hv, ?_⟩
    have e2 : evaluateAlerts ({ mkEngine rule settings with
        alertConditionStartTime := [(rule.id, t1)] }) dataT cn t2
        = ({ mkEngine rule settings with
              activeAlerts := [createAlertInstance rule v cn t2]
              alertHistory := [createAlertInstance rule v cn t2]
              lastEvaluationTime := [(rule.id, t2)] },
           [createAlertInstance rule v cn t2]) := by
      simp [evaluateAlerts, hen, evaluateAlertsStep, hcondT, mkEngine, hne, hge,
        evaluateRuleForNewAlert, hv, setById, setAssoc, eraseAssoc]
    rw [e1]
    simp only [e2]
    simp [mkEngine, createAlertInstance]

/-- Witness for the dwell theorem: `sampleRule` at t = 1 s, again at 21 s
(nothing emitted: 20 s < 30 s), versus again at 36 s (exactly one active
instance emitted after a 35 s dwell). -/
theorem dwell_threshold_behavior_witness :
    ((evaluateAlerts (evaluateAlerts (mkEngine sampleRule settingsOn) dataHigh none 1000).1
        dataHigh none 21000).2 = []) ∧
    (∃ v, extractMetricValue dataHigh sampleRule.metricPath = some v ∧
      (evaluateAlerts (evaluateAlerts (mkEngine sampleRule settingsOn) dataHigh none 1000).1
        dataHigh none 36000).2 = [createAlertInstance sampleRule v none 36000]) := by
  have hA := dwell_threshold_behavior sampleRule dataHigh dataLow settingsOn none
    1000 21000 26000 rfl (by decide) (by decide) (by norm_num)
  have hB := dwell_threshold_behavior sampleRule dataHigh dataLow settingsOn none
    1000 36000 41000 rfl (by decide) (by decide) (by norm_num)
  refine ⟨(hA.1 (by norm_num [ALERT_DELAY_MS])).2.1, ?_⟩
  obtain ⟨v, hv, hemit, -⟩ := hB.2 (by norm_num [ALERT_DELAY_MS])
  exact ⟨v, hv, hemit⟩

end ESMon

namespace ESMon

/-- An engine with a single rule and a single live instance for it. -/
def singleActiveState (rule : AlertRule) (settings : AlertSettings) (e : AlertInstance)
    (hist : List AlertInstance) (le tr : List (String × ℚ)) : AlertEngineState :=
  { rules := [rule]
    activeAlerts := [e]
    alertHistory := hist
    settings := settings
    lastEvaluationTime := le
    alertConditionStartTime := tr }

/-- The mutation applied to an active instance whose condition clears
(lines 707-709): status `resolved`, `resolvedAt` set. -/
def resolvedOf (e : AlertInstance) (now : ℚ) : AlertInstance :=
  { e with status := AlertStatus.resolved, resolvedAt := some now }

/-- The mutation applied by `snoozeAlert` (lines 783-786). -/
def snoozedOf (e : AlertInstance) (minutes now : ℚ) : AlertInstance :=
  { e with
      status := AlertStatus.snoozed
      snoozedUntil := some (now + minutes * 60000) }

/-- **C4** — when a rule's condition does not hold while an active instance
exists, the tick transitions that instance to `resolved` with `resolvedAt`
set, keeps it in the active map and in the history list (same length, the
resolved instance still a member of `getAlertHistory`), and a later
condition-true tick reactivates exactly that instance (emitting it with
status back to `active`). -/
theorem condition_clear_resolves_keeps_history
    (rule : AlertRule) (dataF dataT : JValue) (settings : AlertSettings)
    (cn : Option String) (now now2 : ℚ) (e : AlertInstance)
    (h1 h2 : List AlertInstance) (le tr : List (String × ℚ))
    (hen : settings.enabled = true)
    (hcondF : evaluateRuleCondition rule dataF = false)
    (hcondT : evaluateRuleCondition rule dataT = true)
    (heRule : e.ruleId = rule.id)
    (heStatus : e.status = AlertStatus.active) :
    ((evaluateAlerts (singleActiveState rule settings e (h1 ++ e :: h2) le tr)
        dataF cn now).1.activeAlerts = [resolvedOf e now]) ∧
    (resolvedOf e now).status = AlertStatus.resolved ∧
    (resolvedOf e now).resolvedAt = some now ∧
    resolvedOf e now ∈ getAlertHistory
      (evaluateAlerts (singleActiveState rule settings e (h1 ++ e :: h2) le tr)
        dataF cn now).1 ∧
    (getAlertHistory (evaluateAlerts (singleActiveState rule settings e (h1 ++ e :: h2)
        le tr) dataF cn now).1).length = (h1 ++ e :: h2).length ∧
    (∃ v, extractMetricValue dataT rule.metricPath = some v ∧
      (evaluateAlerts (evaluateAlerts (singleActiveState rule settings e (h1 ++ e :: h2)
          le tr) dataF cn now).1 dataT cn now2).2
        = [reactivate v now2 (resolvedOf e now)] ∧
      (reactivate v now2 (resolvedOf e now)).status = AlertStatus.active) := by
  have eF : evaluateAlerts (singleActiveState rule settings e (h1 ++ e :: h2) le tr)
      dataF cn now
      = ({ rules := [rule]
           activeAlerts := [resolvedOf e now]
           alertHistory := (h1 ++ e :: h2).map (fun a =>
             if a.id == e.id then
               { a with status := AlertStatus.resolved, resolvedAt := some now } else a)
           settings := settings
           lastEvaluationTime := le
           alertConditionStartTime := eraseAssoc tr rule.id }, []) := by
    simp [evaluateAlerts, hen, evaluateAlertsStep, hcondF, singleActiveState,
      heRule, heStatus, updateAlertEverywhere, resolvedOf]
  obtain ⟨-, v, hv⟩ := condition_true_extract hcondT
  refine ⟨by rw [eF], rfl, rfl, ?_, ?_, ⟨v, hv, ?_, rfl⟩⟩
  · rw [eF]
    unfold getAlertHistory
    have hmem : e ∈ h1 ++ e :: h2 := by simp
    have := List.mem_map_of_mem (fun a =>
      if a.id == e.id then
        { a with status := AlertStatus.resolved, resolvedAt := some now } else a) hmem
    simpa [resolvedOf] using this
  · rw [eF]
    unfold getAlertHistory
    simp
  · rw [eF]
    simp [evaluateAlerts, hen, evaluateAlertsStep, hcondT, heRule, resolvedOf, hv,
      updateAlertEverywhere]

/-- Witness for the resolve-then-reactivate theorem at the concrete
`sampleRule` engine. -/
theorem condition_clear_resolves_keeps_history_witness :
    ((evaluateAlerts (singleActiveState sampleRule settingsOn sampleActiveInstance
        [sampleActiveInstance] [] []) dataLow none 46000).1.activeAlerts
      = [resolvedOf sampleActiveInstance 46000]) ∧
    resolvedOf sampleActiveInstance 46000 ∈ getAlertHistory
      (evaluateAlerts (singleActiveState sampleRule settingsOn sampleActiveInstance
        [sampleActiveInstance] [] []) dataLow none 46000).1 := by
  have h := condition_clear_resolves_keeps_history sampleRule dataLow dataHigh settingsOn
    none 46000 51000 sampleActiveInstance [] [] [] [] rfl (by decide) (by decide) rfl rfl
  exact ⟨h.1, h.2.2.2.1⟩

/-- **C10** — `evaluateAlerts` never consults `snoozedUntil`: snoozing an
active instance sets `snoozedUntil` minutes into the future, yet a
condition-true evaluation at any later time `now2` — in particular one still
strictly before `snoozedUntil` — flips the instance straight back to
`active`, increments its occurrence count, and emits it as newly triggered. -/
theorem snoozed_alert_retriggers_ignoring_snoozedUntil
    (rule : AlertRule) (data : JValue) (settings : AlertSettings)
    (cn : Option String) (e : AlertInstance) (hist : List AlertInstance)
    (le tr : List (String × ℚ)) (m now1 now2 : ℚ)
    (hen : settings.enabled = true)
    (hcondT : evaluateRuleCondition rule data = true)
    (heRule : e.ruleId = rule.id)
    (heStatus : e.status = AlertStatus.active)
    (hfuture : now2 < now1 + m * 60000) :
    ((snoozeAlert (singleActiveState rule settings e hist le tr)
        e.id m now1).activeAlerts = [snoozedOf e m now1]) ∧
    (snoozedOf e m now1).snoozedUntil = some (now1 + m * 60000) ∧
    (∃ v, extractMetricValue data rule.metricPath = some v ∧
      (evaluateAlerts (snoozeAlert (singleActiveState rule settings e hist le tr)
          e.id m now1) data cn now2).2 = [reactivate v now2 (snoozedOf e m now1)] ∧
      (reactivate v now2 (snoozedOf e m now1)).status = AlertStatus.active ∧
      (reactivate v now2 (snoozedOf e m now1)).count = some (jsOrQ e.count 1 + 1)) := by
  have eS : snoozeAlert (singleActiveState rule settings e hist le tr) e.id m now1
      = { rules := [rule]
          activeAlerts := [snoozedOf e m now1]
          alertHistory := hist.map (fun a => if a.id == e.id then
            { a with
                status := AlertStatus.snoozed
                snoozedUntil := some (now1 + m * 60000) } else a)
          settings := settings
          lastEvaluationTime := le
          alertConditionStartTime := tr } := by
    simp only [snoozeAlert, singleActiveState, List.find?]
    rw [show (e.id == e.id) = true from beq_self_eq_true e.id]
    simp [heStatus, updateAlertEverywhere, snoozedOf]
  obtain ⟨-, v, hv⟩ := condition_true_extract hcondT
  refine ⟨by rw [eS], rfl, v, hv, ?_, rfl, rfl⟩
  rw [eS]
  simp [evaluateAlerts, hen, evaluateAlertsStep, hcondT, singleActiveState,
    heRule, snoozedOf, hv, updateAlertEverywhere]

/-- Witness for the snooze theorem: the concrete active instance snoozed for
10 minutes at t = 40 s re-triggers at t = 45 s (well before the 640 s
expiry). -/
theorem snoozed_alert_retriggers_ignoring_snoozedUntil_witness :
    ∃ v, extractMetricValue dataHigh sampleRule.metricPath = some v ∧
      (evaluateAlerts (snoozeAlert (singleActiveState sampleRule settingsOn
          sampleActiveInstance [sampleActiveInstance] [] [])
          sampleActiveInstance.id 10 40000) dataHigh none 45000).2
        = [reactivate v 45000 (snoozedOf sampleActiveInstance 10 40000)] := by
  have h := snoozed_alert_retriggers_ignoring_snoozedUntil sampleRule dataHigh settingsOn
    none sampleActiveInstance [sampleActiveInstance] [] [] 10 40000 45000
    rfl (by decide) rfl rfl (by norm_num)
  obtain ⟨-, -, v, hv, hemit, -⟩ := h
  exact ⟨v, hv, hemit⟩

end ESMon

namespace ESMon

/-- Well-formedness of the active-alert map: instance ids are unique keys
(a JS `Map` guarantees this) and at most one instance per ruleId is live. -/
def AtMostOnePerRule (l : List AlertInstance) : Prop :=
  (l.map (fun a => a.id)).Nodup ∧
  ∀ rid : String, l.countP (fun a => a.ruleId == rid) ≤ 1

/-- `countP` only depends on the predicate's values on the list. -/
theorem countP_congr_mem {l : List AlertInstance} {p q : AlertInstance → Bool}
    (h : ∀ a ∈ l, p a = q a) : l.countP p = l.countP q := by
  induction l with
  | nil => rfl
  | cons a t ih =>
    simp only [List.countP_cons, h a (by simp),
      ih (fun b hb => h b (by simp [hb]))]

/-- Counting a ruleId is untouched by a pointwise update that preserves
`ruleId`. -/
theorem countP_ruleId_map {l : List AlertInstance} {f : AlertInstance → AlertInstance}
    (hf : ∀ a, (f a).ruleId = a.ruleId) (rid : String) :
    (l.map f).countP (fun a => a.ruleId == rid) = l.countP (fun a => a.ruleId == rid) := by
  induction l with
  | nil => rfl
  | cons a t ih => simp [List.countP_cons, ih, hf]

/-- The id column is untouched by a pointwise update that preserves `id`. -/
theorem ids_map_of_preserved {l : List AlertInstance} {f : AlertInstance → AlertInstance}
    (hf : ∀ a, (f a).id = a.id) :
    (l.map f).map (fun a => a.id) = l.map (fun a => a.id) := by
  induction l with
  | nil => rfl
  | cons a t ih => simp [ih, hf]

/-- Counting instances with a given id equals counting that id in the id
column. -/
theorem countP_id_eq_count (l : List AlertInstance) (x : String) :
    l.countP (fun a => a.id == x) = (l.map (fun a => a.id)).count x := by
  induction l with
  | nil => rfl
  | cons a t ih => simp [List.countP_cons, List.count_cons, ih]

/-- `updateAlertEverywhere` with an id- and ruleId-preserving mutation keeps
the active map well-formed. -/
theorem inv_updateAlertEverywhere (s : AlertEngineState) (alertId : String)
    (f : AlertInstance → AlertInstance)
    (hfid : ∀ a, (f a).id = a.id) (hfr : ∀ a, (f a).ruleId = a.ruleId)
    (h : AtMostOnePerRule s.activeAlerts) :
    AtMostOnePerRule (updateAlertEverywhere s alertId f).activeAlerts := by
  have hgid : ∀ a : AlertInstance,
      ((fun a => if a.id == alertId then f a else a) a).id = a.id := by
    intro a
    cases hc : (a.id == alertId) with
    | true => simp [hc, hfid]
    | false => simp [hc]
  have hgr : ∀ a : AlertInstance,
      ((fun a => if a.id == alertId then f a else a) a).ruleId = a.ruleId := by
    intro a
    cases hc : (a.id == alertId) with
    | true => simp [hc, hfr]
    | false => simp [hc]
  constructor
  · rw [updateAlertEverywhere]
    rw [ids_map_of_preserved hgid]
    exact h.1
  · intro rid
    rw [updateAlertEverywhere]
    rw [countP_ruleId_map hgr]
    exact h.2 rid

/-- `setById` of an instance whose rule has no live instance keeps the
active map well-formed. -/
theorem inv_setById_new (l : List AlertInstance) (inst : AlertInstance)
    (hnone : l.find? (fun a => a.ruleId == inst.ruleId) = none)
    (h : AtMostOnePerRule l) :
    AtMostOnePerRule (setById l inst) := by
  have hall : ∀ a ∈ l, (a.ruleId == inst.ruleId) = false := by
    intro a ha
    have := List.find?_eq_none.mp hnone a ha
    simpa using this
  unfold setById
  split
  · next hany =>
    have hgid : ∀ a : AlertInstance,
        ((fun a => if a.id == inst.id then inst else a) a).id = a.id := by
      intro a
      cases hc : (a.id == inst.id) with
      | true => simp [hc, (beq_iff_eq.mp hc).symm]
      | false => simp [hc]
    constructor
    · rw [ids_map_of_preserved hgid]
      exact h.1
    · intro rid
      rw [List.countP_map]
      by_cases hr : (inst.ruleId == rid) = true
      · have hrid : inst.ruleId = rid := beq_iff_eq.mp hr
        have heq : l.countP
            ((fun a => a.ruleId == rid) ∘ (fun a => if a.id == inst.id then inst else a))
            = l.countP (fun a => a.id == inst.id) := by
          apply countP_congr_mem
          intro a ha
          cases hc : (a.id == inst.id) with
          | true => simp [Function.comp, hc, hr]
          | false =>
            have hfa := hall a ha
            rw [hrid] at hfa
            simp [Function.comp, hc, hfa]
        rw [heq, countP_id_eq_count]
        exact List.nodup_iff_count_le_one.mp h.1 inst.id
      · refine le_trans (List.countP_mono_left ?_) (h.2 rid)
        intro a ha hp
        cases hc : (a.id == inst.id) with
        | true =>
          exfalso
          simp only [Function.comp, hc, if_true] at hp
          exact hr hp
        | false =>
          simpa [Function.comp, hc] using hp
  · next hany =>
    constructor
    · have hids : (l ++ [inst]).map (fun a => a.id)
          = l.map (fun a => a.id) ++ [inst.id] := by simp
      rw [hids]
      refine List.Nodup.append h.1 (by simp) ?_
      intro x hx hx2
      simp only [List.mem_singleton] at hx2
      subst hx2
      obtain ⟨a, ha, hax⟩ := List.mem_map.mp hx
      exact hany (List.any_eq_true.mpr ⟨a, ha, by simp [hax]⟩)
    · intro rid
      rw [List.countP_append]
      by_cases hr : (inst.ruleId == rid) = true
      · have hz : l.countP (fun a => a.ruleId == rid) = 0 := by
          rw [List.countP_eq_zero]
          intro a ha
          have hfa := hall a ha
          rw [beq_iff_eq.mp hr] at hfa
          simp [hfa]
        have ho : List.countP (fun a => a.ruleId == rid) [inst] ≤ 1 :=
          le_trans (List.countP_le_length _) (by simp)
        omega
      · have h1 := h.2 rid
        have hz : List.countP (fun a => a.ruleId == rid) [inst] = 0 := by
          simp only [List.countP_cons, List.countP_nil]
          simp [hr]
        omega

end ESMon

namespace ESMon

/-- One loop iteration of `evaluateAlerts` keeps the active map well-formed:
every branch either leaves the active set alone, updates instances in place
preserving id and ruleId, or inserts an instance for a rule that had none. -/
theorem step_preserves_inv (data : JValue) (cn : Option String) (now : ℚ)
    (acc : AlertEngineState × List AlertInstance) (rule : AlertRule)
    (h : AtMostOnePerRule acc.1.activeAlerts) :
    AtMostOnePerRule (evaluateAlertsStep data cn now acc rule).1.activeAlerts := by
  obtain ⟨s, ns⟩ := acc
  simp only [evaluateAlertsStep]
  split
  · -- condition holds
    split
    · -- an instance for the rule exists
      split
      · split
        · exact inv_updateAlertEverywhere _ _ _ (fun a => rfl) (fun a => rfl) h
        · exact inv_updateAlertEverywhere _ _ _ (fun a => rfl) (fun a => rfl) h
      · exact h
    · -- no instance: dwell bookkeeping, possibly materialization
      rename_i hfind
      split
      · split
        · exact h
        · split
          · split
            · split
              · refine inv_setById_new _ _ ?_ h
                simpa [createAlertInstance] using hfind
              · exact h
            · exact h
          · exact h
      · exact h
  · -- condition does not hold: resolve in place or no-op
    split
    · exact inv_updateAlertEverywhere _ _ _ (fun a => rfl) (fun a => rfl) h
    · exact h

/-- The whole rule loop keeps the active map well-formed. -/
theorem foldl_preserves_inv (data : JValue) (cn : Option String) (now : ℚ)
    (rules : List AlertRule) (acc : AlertEngineState × List AlertInstance)
    (h : AtMostOnePerRule acc.1.activeAlerts) :
    AtMostOnePerRule
      (rules.foldl (evaluateAlertsStep data cn now) acc).1.activeAlerts := by
  induction rules generalizing acc with
  | nil => exact h
  | cons r rest ih => exact ih _ (step_preserves_inv data cn now acc r h)

/-- **C3** — at most one AlertInstance per ruleId is live in the active set:
`evaluateAlerts` preserves the well-formedness of the active map (unique ids,
≤ 1 instance per rule), and when the condition re-triggers for a rule that
already has an instance — of any status, including a resolved one not yet
dismissed — the loop body keeps the active set's size unchanged and updates
the existing instance in place (emitting it flipped back to `active` with the
occurrence count incremented and `currentValue` refreshed) instead of
creating a second simultaneous instance. -/
theorem at_most_one_live_instance_per_rule
    (s : AlertEngineState) (data : JValue) (cn : Option String) (now : ℚ)
    (hinv : AtMostOnePerRule s.activeAlerts) :
    AtMostOnePerRule (evaluateAlerts s data cn now).1.activeAlerts ∧
    (∀ (rule : AlertRule) (ns : List AlertInstance) (e : AlertInstance),
      s.activeAlerts.find? (fun a => a.ruleId == rule.id) = some e →
      evaluateRuleCondition rule data = true →
      (evaluateAlertsStep data cn now (s, ns) rule).1.activeAlerts.length
        = s.activeAlerts.length ∧
      (e.status ≠ AlertStatus.active →
        ∃ v, extractMetricValue data rule.metricPath = some v ∧
          (evaluateAlertsStep data cn now (s, ns) rule).2 = ns ++ [reactivate v now e] ∧
          (reactivate v now e).id = e.id ∧
          (reactivate v now e).status = AlertStatus.active ∧
          (reactivate v now e).count = some (jsOrQ e.count 1 + 1) ∧
          (reactivate v now e).currentValue = v)) := by
  constructor
  · by_cases hen : s.settings.enabled = true
    · simp only [evaluateAlerts, hen, Bool.not_true, Bool.false_eq_true, if_false]
      exact foldl_preserves_inv data cn now s.rules (s, []) hinv
    · have hf : s.settings.enabled = false := by
        cases hb : s.settings.enabled
        · rfl
        · exact absurd hb hen
      simp only [evaluateAlerts, hf, Bool.not_false, if_true]
      exact hinv
  · intro rule ns e hfind hcond
    obtain ⟨-, v, hv⟩ := condition_true_extract hcond
    by_cases hst : e.status = AlertStatus.active
    · refine ⟨?_, fun hne => absurd hst hne⟩
      simp [evaluateAlertsStep, hcond, hfind, hv, hst, updateAlertEverywhere]
    · refine ⟨?_, fun _ => ⟨v, hv, ?_, rfl, rfl, rfl, rfl⟩⟩
      · simp [evaluateAlertsStep, hcond, hfind, hv, hst, updateAlertEverywhere]
      · simp [evaluateAlertsStep, hcond, hfind, hv, hst]

/-- Witness for the single-live-instance theorem: the engine holding the
resolved concrete instance re-triggers it in place (size stays 1, the emitted
instance is the reactivation). -/
theorem at_most_one_live_instance_per_rule_witness :
    (evaluateAlertsStep dataHigh none 51000
      (singleActiveState sampleRule settingsOn (resolvedOf sampleActiveInstance 46000)
        [resolvedOf sampleActiveInstance 46000] [] [], [])
      sampleRule).1.activeAlerts.length = 1 ∧
    AtMostOnePerRule (evaluateAlerts
      (singleActiveState sampleRule settingsOn (resolvedOf sampleActiveInstance 46000)
        [resolvedOf sampleActiveInstance 46000] [] []) dataHigh none
      51000).1.activeAlerts := by
  have hinv : AtMostOnePerRule
      (singleActiveState sampleRule settingsOn (resolvedOf sampleActiveInstance 46000)
        [resolvedOf sampleActiveInstance 46000] [] []).activeAlerts := by
    constructor
    · simp [singleActiveState]
    · intro rid
      exact le_trans (List.countP_le_length _) (by simp [singleActiveState])
  have h := at_most_one_live_instance_per_rule
    (singleActiveState sampleRule settingsOn (resolvedOf sampleActiveInstance 46000)
      [resolvedOf sampleActiveInstance 46000] [] []) dataHigh none 51000 hinv
  refine ⟨?_, h.1⟩
  have h2 := (h.2 sampleRule [] (resolvedOf sampleActiveInstance 46000)
    (by decide) (by decide)).1
  rw [h2]
  simp [singleActiveState]

end ESMon
